import Mathlib

/-!
Shallow embedding of `src/app/api/recommendations/route.ts` from the
tv-recs repository: the recommendation resolution pipeline (prompt
building, suggestion generation, title extraction, TMDB reference
resolution and the `POST` orchestrator), together with proofs of the
specification claims C1 to C10.

JavaScript strings are modelled as lists of characters (`Str`), the
external HTTP services as explicit environments passed to the
functions, and the network side effects as an explicit trace of the
external calls each run performs.
-/

/-- JavaScript strings, modelled as lists of characters. -/
abbrev Str := List Char

/-- The ASCII characters removed by JavaScript `String.prototype.trim`
(white space and line terminators). -/
def jsIsSpace (c : Char) : Bool :=
  c == ' ' || c == '\t' || c == '\n' || c == '\r' || c == '\x0b' || c == '\x0c'

/-- JavaScript `s.split('\n')`: split on every newline character,
keeping empty segments (so `""` gives `[""]` and `"a\n"` gives
`["a", ""]`). -/
def splitOnNewline : Str → List Str
  | [] => [[]]
  | c :: cs =>
    if c == '\n' then [] :: splitOnNewline cs
    else
      match splitOnNewline cs with
      | [] => [[c]]
      | l :: ls => (c :: l) :: ls

/-- JavaScript `s.trim()`: drop leading and trailing white space. -/
def jsTrim (s : Str) : Str :=
  ((s.dropWhile jsIsSpace).reverse.dropWhile jsIsSpace).reverse

/-- The Title Extractor, route.ts line 153:
`llmResponseText.split('\n').map(title => title.trim()).filter(title => title.length > 0)`. -/
def extractTitles (llmResponseText : Str) : List Str :=
  ((splitOnNewline llmResponseText).map jsTrim).filter (fun t => 0 < t.length)

/-- Modelled from the spec wording of the Title Extractor (section 4.3):
split the raw text on line boundaries, trim surrounding whitespace on
each line, discard lines that are empty after trimming, and return the
remaining ordered sequence as-is. -/
def extractTitlesSpec (raw : Str) : List Str :=
  ((splitOnNewline raw).map jsTrim).filter (fun t => t ≠ [])

/-- Media kind of a TMDB multi-search result (`media_type` field). -/
inductive MediaType where
  | movie
  | tv
  | person
deriving DecidableEq

/-- A TMDB multi-search hit (interface `TMDBMultiSearchResult`). -/
structure TMDBMultiSearchResult where
  id : Nat
  media_type : MediaType
  popularity : Int
deriving DecidableEq

/-- The auxiliary `external_ids` sub-object of a TV detail payload;
`none` for `imdb_id` models a missing / null field. -/
structure TMDBExternalIds where
  imdb_id : Option Str
deriving DecidableEq

/-- A TMDB movie detail payload (interface `TMDBMovieDetails`). -/
structure TMDBMovieDetails where
  imdb_id : Option Str
deriving DecidableEq

/-- A TMDB TV detail payload (interface `TMDBTvDetails`); `imdb_id` is
the root-level identifier some TV responses carry (route.ts line 83). -/
structure TMDBTvDetails where
  external_ids : Option TMDBExternalIds
  imdb_id : Option Str
deriving DecidableEq

/-- Outcome of one external HTTP fetch: a non-2xx status
(`response.ok` false) or a decoded payload. -/
inductive HttpResult (α : Type) where
  | notOk (status : Nat)
  | ok (payload : α)
deriving DecidableEq

/-- The fixed generation configuration, route.ts line 138. -/
structure GenerationConfig where
  temperature : ℚ
  topK : Nat
  topP : ℚ
  maxOutputTokens : Nat
deriving DecidableEq

/-- Harm categories used by the safety settings (route.ts lines 140-143). -/
inductive HarmCategory where
  | harassment
  | hateSpeech
  | sexuallyExplicit
  | dangerousContent
deriving DecidableEq

/-- Harm-block thresholds of the generative-model SDK. -/
inductive HarmBlockThreshold where
  | blockMediumAndAbove
  | blockOnlyHigh
  | blockLowAndAbove
  | blockNone
deriving DecidableEq

/-- One safety setting entry. -/
structure SafetySetting where
  category : HarmCategory
  threshold : HarmBlockThreshold
deriving DecidableEq

/-- Route.ts line 138:
`const generationConfig = { temperature: 0.8, topK: 1, topP: 1, maxOutputTokens: 1024 }`. -/
def generationConfig : GenerationConfig :=
  ⟨0.8, 1, 1, 1024⟩

/-- Route.ts lines 139-144: all four harm categories at
`BLOCK_MEDIUM_AND_ABOVE`. -/
def safetySettings : List SafetySetting :=
  [⟨HarmCategory.harassment, HarmBlockThreshold.blockMediumAndAbove⟩,
   ⟨HarmCategory.hateSpeech, HarmBlockThreshold.blockMediumAndAbove⟩,
   ⟨HarmCategory.sexuallyExplicit, HarmBlockThreshold.blockMediumAndAbove⟩,
   ⟨HarmCategory.dangerousContent, HarmBlockThreshold.blockMediumAndAbove⟩]

/-- One observable external call made by the pipeline: the generative
model invocation (with the configuration it was given), the TMDB
multi-search, or a movie / TV detail fetch (the TV detail fetch carries
`append_to_response=external_ids`). -/
inductive ExtCall where
  | generate (prompt : Str) (config : GenerationConfig) (safety : List SafetySetting)
  | search (query : Str)
  | movieDetail (id : Nat)
  | tvDetail (id : Nat)
deriving DecidableEq

/-- The external TMDB world one resolution runs against: the response
to the multi-search for this title (whose decoded JSON may lack the
`results` field, hence the inner `Option`), and the detail responses
keyed by TMDB id. -/
structure TmdbEnv where
  searchResp : HttpResult (Option (List TMDBMultiSearchResult))
  movieDetailResp : Nat → HttpResult TMDBMovieDetails
  tvDetailResp : Nat → HttpResult TMDBTvDetails

/-- JavaScript truthiness of the `imdbId` variable: `undefined`/`null`
and the empty string are falsy. -/
def jsTruthy : Option Str → Bool
  | none => false
  | some s => !s.isEmpty

/-- JavaScript nullish coalescing `a ?? b` on optional strings: note
that `some []` (an empty string) is NOT nullish, so it does not fall
through. -/
def jsCoalesce : Option Str → Option Str → Option Str
  | some s, _ => some s
  | none, b => b

/-- The IMDB permalink prefix of route.ts line 87. -/
def imdbUrlBase : Str := "https://www.imdb.com/title/".data

/-- Route.ts lines 86-90: if the extracted id is truthy return the
permalink built from it, otherwise null. -/
def buildImdbUrl (imdbId : Option Str) : Option Str :=
  if jsTruthy imdbId then some (imdbUrlBase ++ imdbId.getD []) else none

/-- Route.ts lines 42-96, `getImdbUrlFromTmdb`: multi-search for the
title, take the first result, reject non-movie/tv kinds, fetch the
type-specific detail, extract the IMDB id (for TV via
`external_ids?.imdb_id ?? detailsData.imdb_id`), and build the
permalink when the id is truthy. Returns the result of the original
function together with the trace of HTTP calls performed. -/
def getImdbUrlFromTmdb (tmdbKeyPresent : Bool) (env : TmdbEnv) (title : Str) :
    Option Str × List ExtCall :=
  if !tmdbKeyPresent then (none, [])
  else
    match env.searchResp with
    | HttpResult.notOk _ => (none, [ExtCall.search title])
    | HttpResult.ok resultsOpt =>
      match (resultsOpt.getD []).head? with
      | none => (none, [ExtCall.search title])
      | some topResult =>
        match topResult.media_type with
        | MediaType.person => (none, [ExtCall.search title])
        | MediaType.movie =>
          match env.movieDetailResp topResult.id with
          | HttpResult.notOk _ =>
            (none, [ExtCall.search title, ExtCall.movieDetail topResult.id])
          | HttpResult.ok detailsData =>
            (buildImdbUrl detailsData.imdb_id,
             [ExtCall.search title, ExtCall.movieDetail topResult.id])
        | MediaType.tv =>
          match env.tvDetailResp topResult.id with
          | HttpResult.notOk _ =>
            (none, [ExtCall.search title, ExtCall.tvDetail topResult.id])
          | HttpResult.ok detailsData =>
            (buildImdbUrl
               (jsCoalesce (detailsData.external_ids.bind TMDBExternalIds.imdb_id)
                 detailsData.imdb_id),
             [ExtCall.search title, ExtCall.tvDetail topResult.id])

/-- JavaScript `userMovies.join(", ")`. -/
def joinComma : List Str → Str
  | [] => []
  | [t] => t
  | t :: ts => t ++ ", ".data ++ joinComma ts

/-- The part of the prompt template (route.ts lines 125-135) before the
interpolated liked-titles list. -/
def promptHead : Str :=
  "\n      Given the following movies and TV shows that a user likes: ".data

/-- The part of the prompt template after the interpolated list. -/
def promptTail : Str :=
  (".\n\n      Please provide 6 new TV show or movie recommendations based on these preferences.\n      List only the titles of the recommended movies or TV shows. Each title should be on a new line.\n      Do not include numbers, dashes, or any other formatting before the titles. Just the titles.\n      For example:\n      Recommended Show 1\n      Recommended Movie 2\n      Another Recommendation\n    ").data

/-- The Prompt Builder: the template literal of route.ts lines 125-135
with the liked titles comma-joined into it. -/
def buildPrompt (userMovies : List Str) : Str :=
  promptHead ++ joinComma userMovies ++ promptTail

/-- Outcome of the `model.generateContent` call: a thrown
transport/service error, or raw response text. -/
inductive GenOutcome where
  | err
  | ok (text : Str)

/-- The output unit (interface `Recommendation`). -/
structure Recommendation where
  title : Str
  imdbUrl : Str
deriving DecidableEq

/-- The distinct JSON responses the route can produce. The three config
errors are the 500s of lines 100-114, `validationError` is the 400 of
line 121, `emptySuggestion` the 500 of line 157 (carrying the raw model
text), `noResolvable` the 500 of line 174 (carrying the candidate
titles), `success` the 200 of line 177 and `failedToGet` the catch-all
500 of line 190. -/
inductive ApiResponse where
  | configErrorGoogle
  | configErrorTmdb
  | configErrorGenAi
  | validationError
  | emptySuggestion (llmRawResponse : Str)
  | noResolvable (llmTitles : List Str)
  | success (recommendations : List Recommendation)
  | failedToGet
deriving DecidableEq

/-- The per-title resolution loop of route.ts lines 160-170: resolve
each title in order, keep only the ones with an IMDB URL, and (in this
model) accumulate the trace of external calls. -/
def resolveLoop (tmdbKeyPresent : Bool) (resEnv : Str → TmdbEnv) :
    List Str → List Recommendation × List ExtCall
  | [] => ([], [])
  | title :: rest =>
    let r := getImdbUrlFromTmdb tmdbKeyPresent (resEnv title) title
    let tail := resolveLoop tmdbKeyPresent resEnv rest
    (match r.1 with
     | some url => Recommendation.mk title url :: tail.1
     | none => tail.1,
     r.2 ++ tail.2)

/-- Route.ts lines 98-192, the `POST` handler: config checks,
validation, prompt build, model call, title extraction, per-title
resolution and aggregation. `bodyMovies` is the request body's
`movies` field (`none` models a missing / null / undefined field),
`gen` the outcome of the model call, `resEnv` the TMDB world each
title's resolution runs against. Returns the response together with
the trace of external calls. -/
def POST (googleKey tmdbKey : Bool) (bodyMovies : Option (List Str))
    (gen : GenOutcome) (resEnv : Str → TmdbEnv) : ApiResponse × List ExtCall :=
  if !googleKey then (ApiResponse.configErrorGoogle, [])
  else if !tmdbKey then (ApiResponse.configErrorTmdb, [])
  else if !googleKey then (ApiResponse.configErrorGenAi, [])
  else
    match bodyMovies with
    | none => (ApiResponse.validationError, [])
    | some userMovies =>
      if userMovies.length < 3 then (ApiResponse.validationError, [])
      else
        let prompt := buildPrompt userMovies
        match gen with
        | GenOutcome.err =>
          (ApiResponse.failedToGet,
           [ExtCall.generate prompt generationConfig safetySettings])
        | GenOutcome.ok llmResponseText =>
          let recommendedTitles := extractTitles llmResponseText
          if recommendedTitles.length = 0 then
            (ApiResponse.emptySuggestion llmResponseText,
             [ExtCall.generate prompt generationConfig safetySettings])
          else
            let rl := resolveLoop tmdbKey resEnv recommendedTitles
            if rl.1.length = 0 ∧ 0 < recommendedTitles.length then
              (ApiResponse.noResolvable recommendedTitles,
               ExtCall.generate prompt generationConfig safetySettings :: rl.2)
            else
              (ApiResponse.success rl.1,
               ExtCall.generate prompt generationConfig safetySettings :: rl.2)

/-- C3: for every raw model-output string the Title Extractor returns
exactly the lines obtained by splitting on line boundaries, trimming
each line and discarding lines empty after trimming, in the original
order (a sublist of the trimmed line sequence), with every returned
title non-empty; as a total Lean function it cannot throw on any
input. -/
theorem c3_extractTitles_matches_spec (raw : Str) :
    extractTitles raw = extractTitlesSpec raw ∧
    (extractTitles raw).Sublist ((splitOnNewline raw).map jsTrim) ∧
    ∀ t ∈ extractTitles raw, t ≠ [] := by
  refine ⟨?_, ?_, ?_⟩
  · unfold extractTitles extractTitlesSpec
    apply List.filter_congr
    intro t _
    cases t <;> simp
  · exact List.filter_sublist _
  · intro t ht
    have hp := List.of_mem_filter ht
    cases t <;> simp at hp ⊢

/-- C3 witness: the extractor applied to a concrete noisy raw output
(surrounding blanks, an interior empty line) agrees with the spec-side
description, and the concrete extracted title is non-empty. -/
theorem c3_extractTitles_matches_spec_witness :
    extractTitles ("  Tenet \n\n Dune".data) =
      extractTitlesSpec ("  Tenet \n\n Dune".data) ∧
    "Tenet".data ≠ [] := by
  have h := c3_extractTitles_matches_spec ("  Tenet \n\n Dune".data)
  exact ⟨h.1, h.2.2 ("Tenet".data) (by decide)⟩

/-- Helper: a truthy build only succeeds on a non-empty identifier, and
the produced permalink is the IMDB base followed by that identifier. -/
theorem buildImdbUrl_some (imdbId : Option Str) (url : Str)
    (h : buildImdbUrl imdbId = some url) :
    ∃ s, s ≠ [] ∧ imdbId = some s ∧ url = imdbUrlBase ++ s := by
  unfold buildImdbUrl at h
  split at h
  · rename_i ht
    cases imdbId with
    | none => simp [jsTruthy] at ht
    | some s =>
      refine ⟨s, ?_, rfl, ?_⟩
      · simp [jsTruthy] at ht
        intro hnil
        rw [hnil] at ht
        simp at ht
      · simpa using h.symm
  · exact absurd h (by simp)

/-- Helper: every resolved reference produced by `getImdbUrlFromTmdb`
has the shape IMDB base ++ non-empty identifier. -/
theorem getImdbUrlFromTmdb_some_form (k : Bool) (env : TmdbEnv) (title url : Str)
    (h : (getImdbUrlFromTmdb k env title).1 = some url) :
    ∃ s, s ≠ [] ∧ url = imdbUrlBase ++ s := by
  unfold getImdbUrlFromTmdb at h
  split at h
  · simp at h
  · split at h
    · simp at h
    · split at h
      · simp at h
      · split at h
        · simp at h
        · split at h
          · simp at h
          · obtain ⟨s, hs, _, hu⟩ := buildImdbUrl_some _ _ h
            exact ⟨s, hs, hu⟩
        · split at h
          · simp at h
          · obtain ⟨s, hs, _, hu⟩ := buildImdbUrl_some _ _ h
            exact ⟨s, hs, hu⟩

/-- C4: the Reference Resolver returns unresolved (not an error) when
the search call is non-2xx, when the search returns no results, when
the top result is a person, or when the detail call is non-2xx; in the
no-result and wrong-kind cases the call trace contains no detail
fetch. -/
theorem c4_resolver_unresolved (env : TmdbEnv) (title : Str) :
    (∀ status, env.searchResp = HttpResult.notOk status →
      getImdbUrlFromTmdb true env title = (none, [ExtCall.search title])) ∧
    (∀ resultsOpt, env.searchResp = HttpResult.ok resultsOpt →
      resultsOpt.getD [] = [] →
      getImdbUrlFromTmdb true env title = (none, [ExtCall.search title])) ∧
    (∀ resultsOpt top rest, env.searchResp = HttpResult.ok resultsOpt →
      resultsOpt.getD [] = top :: rest → top.media_type = MediaType.person →
      getImdbUrlFromTmdb true env title = (none, [ExtCall.search title])) ∧
    (∀ resultsOpt top rest status, env.searchResp = HttpResult.ok resultsOpt →
      resultsOpt.getD [] = top :: rest → top.media_type = MediaType.movie →
      env.movieDetailResp top.id = HttpResult.notOk status →
      getImdbUrlFromTmdb true env title =
        (none, [ExtCall.search title, ExtCall.movieDetail top.id])) ∧
    (∀ resultsOpt top rest status, env.searchResp = HttpResult.ok resultsOpt →
      resultsOpt.getD [] = top :: rest → top.media_type = MediaType.tv →
      env.tvDetailResp top.id = HttpResult.notOk status →
      getImdbUrlFromTmdb true env title =
        (none, [ExtCall.search title, ExtCall.tvDetail top.id])) := by
  refine ⟨?_, ?_, ?_, ?_, ?_⟩
  · intro status hs
    simp [getImdbUrlFromTmdb, hs]
  · intro resultsOpt hs hr
    simp [getImdbUrlFromTmdb, hs, hr]
  · intro resultsOpt top rest hs hr hk
    simp [getImdbUrlFromTmdb, hs, hr, hk]
  · intro resultsOpt top rest status hs hr hk hd
    simp [getImdbUrlFromTmdb, hs, hr, hk, hd]
  · intro resultsOpt top rest status hs hr hk hd
    simp [getImdbUrlFromTmdb, hs, hr, hk, hd]

/-- Concrete environment whose top search hit is a person. -/
def envPersonW : TmdbEnv :=
  ⟨HttpResult.ok (some [⟨7, MediaType.person, 5⟩]),
   fun _ => HttpResult.notOk 404,
   fun _ => HttpResult.notOk 404⟩

/-- C4 witness: on a concrete environment whose top hit is a person,
resolution is unresolved and only the search call was made. -/
theorem c4_resolver_unresolved_witness :
    getImdbUrlFromTmdb true envPersonW ("Zendaya".data) =
      (none, [ExtCall.search ("Zendaya".data)]) :=
  (c4_resolver_unresolved envPersonW ("Zendaya".data)).2.2.1
    (some [⟨7, MediaType.person, 5⟩]) ⟨7, MediaType.person, 5⟩ [] rfl rfl rfl

/-- C5: for a TV candidate, if the detail payload lacks the
`external_ids` block but carries a non-empty root-level `imdb_id`,
resolution succeeds through the root-level fallback; and if the
`external_ids` block is present with a non-empty identifier, that
identifier is the one used. -/
theorem c5_tv_external_ids_fallback (env : TmdbEnv) (title : Str)
    (resultsOpt : Option (List TMDBMultiSearchResult))
    (top : TMDBMultiSearchResult) (rest : List TMDBMultiSearchResult)
    (d : TMDBTvDetails)
    (hs : env.searchResp = HttpResult.ok resultsOpt)
    (hr : resultsOpt.getD [] = top :: rest)
    (hk : top.media_type = MediaType.tv)
    (hd : env.tvDetailResp top.id = HttpResult.ok d) :
    (∀ s, d.external_ids = none → d.imdb_id = some s → s ≠ [] →
      (getImdbUrlFromTmdb true env title).1 = some (imdbUrlBase ++ s)) ∧
    (∀ e s, d.external_ids = some e → e.imdb_id = some s → s ≠ [] →
      (getImdbUrlFromTmdb true env title).1 = some (imdbUrlBase ++ s)) := by
  constructor
  · intro s hext hroot hne
    cases s with
    | nil => exact absurd rfl hne
    | cons c cs =>
      simp [getImdbUrlFromTmdb, hs, hr, hk, hd, hext, hroot, jsCoalesce,
        buildImdbUrl, jsTruthy]
  · intro e s hext hid hne
    cases s with
    | nil => exact absurd rfl hne
    | cons c cs =>
      simp [getImdbUrlFromTmdb, hs, hr, hk, hd, hext, hid, jsCoalesce,
        buildImdbUrl, jsTruthy]

/-- Concrete environment: TV top hit, detail payload without
`external_ids` but with a root-level id. -/
def envTvFallbackW : TmdbEnv :=
  ⟨HttpResult.ok (some [⟨42, MediaType.tv, 9⟩]),
   fun _ => HttpResult.notOk 404,
   fun _ => HttpResult.ok ⟨none, some ("tt0903747".data)⟩⟩

/-- C5 witness: the root-level fallback resolves a concrete show. -/
theorem c5_tv_external_ids_fallback_witness :
    (getImdbUrlFromTmdb true envTvFallbackW ("Breaking Bad".data)).1 =
      some (imdbUrlBase ++ "tt0903747".data) :=
  (c5_tv_external_ids_fallback envTvFallbackW ("Breaking Bad".data)
      (some [⟨42, MediaType.tv, 9⟩]) ⟨42, MediaType.tv, 9⟩ [] ⟨none, some ("tt0903747".data)⟩
      rfl rfl rfl rfl).1
    ("tt0903747".data) rfl rfl (by decide)

/-- Helper: the recommendations collected by the resolution loop are
exactly the order-preserving filterMap of successful resolutions. -/
theorem resolveLoop_fst_eq_filterMap (tk : Bool) (resEnv : Str → TmdbEnv)
    (titles : List Str) :
    (resolveLoop tk resEnv titles).1 =
      titles.filterMap (fun t =>
        ((getImdbUrlFromTmdb tk (resEnv t) t).1).map
          (fun url => Recommendation.mk t url)) := by
  induction titles with
  | nil => rfl
  | cons t ts ih =>
    simp only [resolveLoop, List.filterMap_cons]
    cases h : (getImdbUrlFromTmdb tk (resEnv t) t).1 with
    | none => simp [h, ih]
    | some url => simp [h, ih]

/-- Helper: the resolver only ever performs search and detail calls,
never a generative-model call. -/
theorem getImdbUrlFromTmdb_trace_no_generate (k : Bool) (env : TmdbEnv)
    (title p : Str) (cfg : GenerationConfig) (ss : List SafetySetting) :
    ExtCall.generate p cfg ss ∉ (getImdbUrlFromTmdb k env title).2 := by
  unfold getImdbUrlFromTmdb
  split
  · simp
  · split
    · simp
    · split
      · simp
      · split
        · simp
        · split <;> simp
        · split <;> simp

/-- Helper: the resolution loop never performs a generative-model call. -/
theorem resolveLoop_trace_no_generate (tk : Bool) (resEnv : Str → TmdbEnv)
    (titles : List Str) (p : Str) (cfg : GenerationConfig)
    (ss : List SafetySetting) :
    ExtCall.generate p cfg ss ∉ (resolveLoop tk resEnv titles).2 := by
  induction titles with
  | nil => simp [resolveLoop]
  | cons t ts ih =>
    simp only [resolveLoop]
    intro hmem
    rcases List.mem_append.mp hmem with h | h
    · exact getImdbUrlFromTmdb_trace_no_generate tk (resEnv t) t p cfg ss h
    · exact ih h

/-- C1: whenever at least one extracted candidate title resolves, the
pipeline returns success, and the Recommendation sequence is exactly
the order-preserving sequence of resolving candidates paired with
their resolved references; fewer than 6 resolutions is still success. -/
theorem c1_partial_success (movies : List Str) (raw : Str)
    (resEnv : Str → TmdbEnv)
    (hmov : 3 ≤ movies.length)
    (hres : ∃ t ∈ extractTitles raw,
      ((getImdbUrlFromTmdb true (resEnv t) t).1).isSome = true) :
    (POST true true (some movies) (GenOutcome.ok raw) resEnv).1 =
      ApiResponse.success
        ((extractTitles raw).filterMap (fun t =>
          ((getImdbUrlFromTmdb true (resEnv t) t).1).map
            (fun url => Recommendation.mk t url))) := by
  obtain ⟨t0, ht0, hsome⟩ := hres
  have hlen : ¬ movies.length < 3 := by omega
  have hlen0 : ¬ (extractTitles raw).length = 0 := by
    intro h
    rw [List.length_eq_zero] at h
    rw [h] at ht0
    exact absurd ht0 (List.not_mem_nil t0)
  obtain ⟨url0, hu0⟩ := Option.isSome_iff_exists.mp hsome
  have hmem : Recommendation.mk t0 url0 ∈
      (resolveLoop true resEnv (extractTitles raw)).1 := by
    rw [resolveLoop_fst_eq_filterMap]
    exact List.mem_filterMap.mpr ⟨t0, ht0, by rw [hu0]; rfl⟩
  have hrl : ¬ ((resolveLoop true resEnv (extractTitles raw)).1.length = 0 ∧
      0 < (extractTitles raw).length) := by
    intro hand
    rw [List.length_eq_zero] at hand
    rw [hand.1] at hmem
    exact absurd hmem (List.not_mem_nil _)
  simp only [POST, Bool.not_true, Bool.false_eq_true, if_false, hlen, if_neg,
    hlen0, hrl, ite_false]
  rw [resolveLoop_fst_eq_filterMap]

/-- Environment whose single search hit is a movie with the given id
whose detail payload carries the given IMDB id. -/
def movieHitEnv (tmdbId : Nat) (imdb : Str) : TmdbEnv :=
  ⟨HttpResult.ok (some [⟨tmdbId, MediaType.movie, 10⟩]),
   fun _ => HttpResult.ok ⟨some imdb⟩,
   fun _ => HttpResult.notOk 500⟩

/-- Environment in which the search succeeds with an empty result
list, so every resolution fails. -/
def failEnv : TmdbEnv :=
  ⟨HttpResult.ok (some []), fun _ => HttpResult.notOk 404,
   fun _ => HttpResult.notOk 404⟩

/-- Per-title worlds for the C1 witness: candidates A and C resolve,
everything else fails. -/
def resEnvW : Str → TmdbEnv := fun t =>
  if t = "A".data then movieHitEnv 1 ("tt0000001".data)
  else if t = "C".data then movieHitEnv 3 ("tt0000003".data)
  else failEnv

/-- C1 witness: four candidates of which exactly two resolve give a
success with exactly those two recommendations, in candidate order. -/
theorem c1_partial_success_witness :
    (POST true true
        (some ["The Matrix".data, "Inception".data, "Interstellar".data])
        (GenOutcome.ok ("A\nB\nC\nD".data)) resEnvW).1 =
      ApiResponse.success
        [Recommendation.mk ("A".data) (imdbUrlBase ++ "tt0000001".data),
         Recommendation.mk ("C".data) (imdbUrlBase ++ "tt0000003".data)] := by
  rw [c1_partial_success
    ["The Matrix".data, "Inception".data, "Interstellar".data]
    ("A\nB\nC\nD".data) resEnvW (by decide)
    ⟨"A".data, by decide, by decide⟩]
  decide

/-- C2: any liked-titles list with fewer than 3 entries is rejected
with a validation error and an empty external-call trace (no model
invocation, search or detail fetch). -/
theorem c2_validation_short_input (movies : List Str) (gen : GenOutcome)
    (resEnv : Str → TmdbEnv) (h : movies.length < 3) :
    POST true true (some movies) gen resEnv = (ApiResponse.validationError, []) := by
  simp [POST, h]

/-- C2 witness: a one-element list is rejected with no external calls. -/
theorem c2_validation_short_input_witness :
    POST true true (some ["Heat".data]) GenOutcome.err (fun _ => failEnv) =
      (ApiResponse.validationError, []) :=
  c2_validation_short_input ["Heat".data] GenOutcome.err (fun _ => failEnv)
    (by decide)

/-- C6: when generation succeeds but zero candidate titles are
extracted, the pipeline fails with the empty-suggestion outcome
(carrying the raw text), the trace holds only the model call — so zero
external search calls — and this outcome differs from the
transport-failure outcome. -/
theorem c6_empty_suggestion (movies : List Str) (raw : Str)
    (resEnv : Str → TmdbEnv)
    (hmov : 3 ≤ movies.length)
    (hempty : extractTitles raw = []) :
    POST true true (some movies) (GenOutcome.ok raw) resEnv =
      (ApiResponse.emptySuggestion raw,
       [ExtCall.generate (buildPrompt movies) generationConfig safetySettings]) ∧
    ApiResponse.emptySuggestion raw ≠ ApiResponse.failedToGet := by
  have hlen : ¬ movies.length < 3 := by omega
  constructor
  · simp [POST, hlen, hempty]
  · simp

/-- C6 witness: a pure-whitespace model response yields the
empty-suggestion failure with only the model call in the trace. -/
theorem c6_empty_suggestion_witness :
    POST true true
        (some ["The Matrix".data, "Inception".data, "Interstellar".data])
        (GenOutcome.ok ("\n  \n".data)) (fun _ => failEnv) =
      (ApiResponse.emptySuggestion ("\n  \n".data),
       [ExtCall.generate
          (buildPrompt ["The Matrix".data, "Inception".data, "Interstellar".data])
          generationConfig safetySettings]) ∧
    ApiResponse.emptySuggestion ("\n  \n".data) ≠ ApiResponse.failedToGet :=
  c6_empty_suggestion ["The Matrix".data, "Inception".data, "Interstellar".data]
    ("\n  \n".data) (fun _ => failEnv) (by decide) (by decide)

/-- C7: when candidates were extracted but every resolution fails, the
pipeline fails with the no-references-resolvable outcome carrying the
raw candidate titles, and that outcome differs from every
empty-suggestion outcome. -/
theorem c7_no_resolvable (movies : List Str) (raw : Str)
    (resEnv : Str → TmdbEnv)
    (hmov : 3 ≤ movies.length)
    (hne : extractTitles raw ≠ [])
    (hall : ∀ t ∈ extractTitles raw,
      (getImdbUrlFromTmdb true (resEnv t) t).1 = none) :
    (POST true true (some movies) (GenOutcome.ok raw) resEnv).1 =
      ApiResponse.noResolvable (extractTitles raw) ∧
    ∀ s, ApiResponse.noResolvable (extractTitles raw) ≠
      ApiResponse.emptySuggestion s := by
  have hlen : ¬ movies.length < 3 := by omega
  have hlen0 : ¬ (extractTitles raw).length = 0 := by
    intro h
    exact hne (List.length_eq_zero.mp h)
  have hnilrl : (resolveLoop true resEnv (extractTitles raw)).1 = [] := by
    rw [resolveLoop_fst_eq_filterMap]
    apply List.filterMap_eq_nil_iff.mpr
    intro t ht
    rw [hall t ht]
    rfl
  have hpos : 0 < (extractTitles raw).length := List.length_pos.mpr hne
  constructor
  · simp [POST, hlen, hlen0, hnilrl, hpos]
  · intro s
    simp

/-- C7 witness: three candidates, all of which fail to resolve, give
the no-references-resolvable failure carrying those three titles. -/
theorem c7_no_resolvable_witness :
    (POST true true
        (some ["The Matrix".data, "Inception".data, "Interstellar".data])
        (GenOutcome.ok ("X\nY\nZ".data)) (fun _ => failEnv)).1 =
      ApiResponse.noResolvable ["X".data, "Y".data, "Z".data] := by
  have h := c7_no_resolvable
    ["The Matrix".data, "Inception".data, "Interstellar".data]
    ("X\nY\nZ".data) (fun _ => failEnv) (by decide) (by decide) (by decide)
  rw [h.1]
  decide

/-- C8: every generative-model invocation the pipeline performs uses
the fixed configuration — temperature 0.8, topK 1, topP 1 and an
output-token ceiling of at least 1024 — and the four harm categories
all filtered at block-medium-and-above. -/
theorem c8_generation_config (gk tk : Bool) (bodyMovies : Option (List Str))
    (gen : GenOutcome) (resEnv : Str → TmdbEnv) :
    (∀ p cfg ss, ExtCall.generate p cfg ss ∈ (POST gk tk bodyMovies gen resEnv).2 →
      cfg = generationConfig ∧ ss = safetySettings) ∧
    generationConfig.temperature = 8 / 10 ∧
    generationConfig.topK = 1 ∧
    generationConfig.topP = 1 ∧
    1024 ≤ generationConfig.maxOutputTokens ∧
    safetySettings =
      [⟨HarmCategory.harassment, HarmBlockThreshold.blockMediumAndAbove⟩,
       ⟨HarmCategory.hateSpeech, HarmBlockThreshold.blockMediumAndAbove⟩,
       ⟨HarmCategory.sexuallyExplicit, HarmBlockThreshold.blockMediumAndAbove⟩,
       ⟨HarmCategory.dangerousContent, HarmBlockThreshold.blockMediumAndAbove⟩] := by
  refine ⟨?_, by norm_num [generationConfig], rfl, rfl,
    by norm_num [generationConfig], rfl⟩
  intro p cfg ss hmem
  simp only [POST] at hmem
  repeat' split at hmem
  all_goals simp at hmem
  all_goals try exact ⟨hmem.2.1, hmem.2.2⟩
  all_goals
    rcases hmem with h | h
  all_goals try exact ⟨h.2.1, h.2.2⟩
  all_goals exact absurd h (resolveLoop_trace_no_generate _ _ _ _ _ _)

set_option maxRecDepth 10000 in
/-- C8 witness: the concrete model call performed by a concrete run
carries exactly the fixed configuration and safety settings. -/
theorem c8_generation_config_witness :
    GenerationConfig.mk 0.8 1 1 1024 = generationConfig ∧
    [⟨HarmCategory.harassment, HarmBlockThreshold.blockMediumAndAbove⟩,
     ⟨HarmCategory.hateSpeech, HarmBlockThreshold.blockMediumAndAbove⟩,
     ⟨HarmCategory.sexuallyExplicit, HarmBlockThreshold.blockMediumAndAbove⟩,
     ⟨HarmCategory.dangerousContent, HarmBlockThreshold.blockMediumAndAbove⟩] =
      safetySettings :=
  (c8_generation_config true true
      (some ["The Matrix".data, "Inception".data, "Interstellar".data])
      GenOutcome.err (fun _ => failEnv)).1
    (buildPrompt ["The Matrix".data, "Inception".data, "Interstellar".data])
    (GenerationConfig.mk 0.8 1 1 1024)
    [⟨HarmCategory.harassment, HarmBlockThreshold.blockMediumAndAbove⟩,
     ⟨HarmCategory.hateSpeech, HarmBlockThreshold.blockMediumAndAbove⟩,
     ⟨HarmCategory.sexuallyExplicit, HarmBlockThreshold.blockMediumAndAbove⟩,
     ⟨HarmCategory.dangerousContent, HarmBlockThreshold.blockMediumAndAbove⟩]
    (by simp [POST, generationConfig, safetySettings])

/-- C9: every Recommendation in a success output carries a reference
URL that is exactly the IMDB title prefix followed by a non-empty
identifier; an absent or empty identifier never builds a URL (so the
title is dropped instead of emitting a malformed permalink). -/
theorem c9_success_urls_wellformed (gk tk : Bool)
    (bodyMovies : Option (List Str)) (gen : GenOutcome)
    (resEnv : Str → TmdbEnv) (recs : List Recommendation)
    (hsucc : (POST gk tk bodyMovies gen resEnv).1 = ApiResponse.success recs) :
    (∀ r ∈ recs, ∃ s, s ≠ [] ∧ r.imdbUrl = imdbUrlBase ++ s) ∧
    buildImdbUrl none = none ∧ buildImdbUrl (some []) = none := by
  refine ⟨?_, rfl, rfl⟩
  intro r hr
  simp only [POST] at hsucc
  repeat' split at hsucc
  all_goals simp at hsucc
  subst hsucc
  rw [resolveLoop_fst_eq_filterMap] at hr
  obtain ⟨t, ht, hmap⟩ := List.mem_filterMap.mp hr
  cases hu : (getImdbUrlFromTmdb tk (resEnv t) t).1 with
  | none =>
    rw [hu] at hmap
    exact absurd hmap (by simp)
  | some url =>
    rw [hu] at hmap
    obtain ⟨s, hs, hform⟩ := getImdbUrlFromTmdb_some_form tk (resEnv t) t url hu
    have hrec : r = Recommendation.mk t url := by
      simpa using hmap.symm
    refine ⟨s, hs, ?_⟩
    rw [hrec, ← hform]

/-- Per-title world for the C9 witness: everything resolves to one
concrete movie. -/
def resEnvDuneW : Str → TmdbEnv := fun _ => movieHitEnv 438631 ("tt1160419".data)

/-- C9 witness: the single recommendation of a concrete successful run
has a well-formed IMDB permalink with a non-empty identifier. -/
theorem c9_success_urls_wellformed_witness :
    ∃ s, s ≠ [] ∧
      (Recommendation.mk ("Dune".data) (imdbUrlBase ++ "tt1160419".data)).imdbUrl =
        imdbUrlBase ++ s :=
  (c9_success_urls_wellformed true true
      (some ["The Matrix".data, "Inception".data, "Interstellar".data])
      (GenOutcome.ok ("Dune".data)) resEnvDuneW
      [Recommendation.mk ("Dune".data) (imdbUrlBase ++ "tt1160419".data)]
      (by decide)).1
    (Recommendation.mk ("Dune".data) (imdbUrlBase ++ "tt1160419".data))
    (by decide)

/-- C10: a request body whose `movies` field is missing, null or
undefined is rejected with the same validation error as a too-short
list, with no external calls made. -/
theorem c10_missing_movies_field (gen : GenOutcome) (resEnv : Str → TmdbEnv) :
    POST true true none gen resEnv = (ApiResponse.validationError, []) ∧
    POST true true none gen resEnv = POST true true (some []) gen resEnv := by
  constructor
  · simp [POST]
  · simp [POST]
